import Mathlib

/-
Verification of MoveSquare (src/MoveSquare/main.cpp): a single-file SDL3
program that moves a square inside a fixed 800x600 window, driven by
W/S/A/D keys, clamped to the window, paced to 60 FPS.

The embedding models the C++ float position arithmetic with exact rational
arithmetic (the data model of the design: a 2D point with fractional
precision), external SDL calls as trace actions, and the event loop as a
fold over per-iteration event batches.
-/

namespace MoveSquare

/-- A 2D position with fractional precision (squareX, squareY in main.cpp,
lines 24-25). -/
@[ext]
structure Position where
  x : ℚ
  y : ℚ
deriving DecidableEq

/-- The four movement flags (movingUp, movingDown, movingLeft, movingRight,
main.cpp lines 36-39). -/
structure MovementIntent where
  up : Bool
  down : Bool
  left : Bool
  right : Bool
deriving DecidableEq

/-- The movement phase of the per-frame update (main.cpp lines 121-124):
each active flag adds or subtracts the move speed on its axis,
unconditionally and independently. -/
def moveStep (intent : MovementIntent) (speed : ℚ) (p : Position) : Position :=
  let y := p.y
  let y := if intent.up then y - speed else y
  let y := if intent.down then y + speed else y
  let x := p.x
  let x := if intent.left then x - speed else x
  let x := if intent.right then x + speed else x
  { x := x, y := y }

/-- The clamp phase of the per-frame update (main.cpp lines 127-130), in
source order: lower-bound clamps on x and y, then upper-bound clamps. -/
def clampStep (size w h : ℚ) (p : Position) : Position :=
  let x := if p.x < 0 then 0 else p.x
  let y := if p.y < 0 then 0 else p.y
  let x := if x + size > w then w - size else x
  let y := if y + size > h then h - size else y
  { x := x, y := y }

/-- One application of the Position Updater: movement first (lines 121-124),
then clamping (lines 127-130). -/
def positionUpdater (intent : MovementIntent) (speed size w h : ℚ)
    (p : Position) : Position :=
  clampStep size w h (moveStep intent speed p)

/-- Window width captured once at startup (main.cpp lines 15, 30-32). -/
def windowWidth : ℚ := 800

/-- Window height captured once at startup (main.cpp lines 15, 30-33). -/
def windowHeight : ℚ := 600

/-- Side length of the square (main.cpp line 26). -/
def squareSize : ℚ := 50

/-- Pixels moved per frame per active flag (main.cpp line 27). -/
def moveSpeed : ℚ := 5

/-- Target frame duration in milliseconds (main.cpp line 53). -/
def targetFrameTimeMS : ℚ := 1000 / 60

/-- The scancodes the key switch distinguishes (main.cpp lines 76-110):
the four movement keys and a default bucket for every other key. -/
inductive Scancode where
  | w
  | s
  | a
  | d
  | other
deriving DecidableEq

/-- The event kinds the poll switch distinguishes (main.cpp lines 68-114):
quit, key down, key up, and a default bucket for every other event type. -/
inductive SDLEvent where
  | quit
  | keyDown (sc : Scancode)
  | keyUp (sc : Scancode)
  | otherEvent
deriving DecidableEq

/-- The mutable loop state: the running flag (line 52), the four movement
flags (lines 36-39) and the square position (lines 24-25). -/
structure LoopState where
  running : Bool
  movingUp : Bool
  movingDown : Bool
  movingLeft : Bool
  movingRight : Bool
  squareX : ℚ
  squareY : ℚ
deriving DecidableEq

/-- The state at entry of the game loop (main.cpp lines 24-25, 36-39, 52). -/
def initState : LoopState :=
  { running := true, movingUp := false, movingDown := false,
    movingLeft := false, movingRight := false,
    squareX := 100, squareY := 100 }

/-- Processing of one polled event (the switch at main.cpp lines 68-114). -/
def processEvent (st : LoopState) (e : SDLEvent) : LoopState :=
  match e with
  | SDLEvent.quit => { st with running := false }
  | SDLEvent.keyDown sc =>
      match sc with
      | Scancode.w => { st with movingUp := true }
      | Scancode.s => { st with movingDown := true }
      | Scancode.a => { st with movingLeft := true }
      | Scancode.d => { st with movingRight := true }
      | Scancode.other => st
  | SDLEvent.keyUp sc =>
      match sc with
      | Scancode.w => { st with movingUp := false }
      | Scancode.s => { st with movingDown := false }
      | Scancode.a => { st with movingLeft := false }
      | Scancode.d => { st with movingRight := false }
      | Scancode.other => st
  | SDLEvent.otherEvent => st

/-- The event drain loop (main.cpp line 67): all currently queued events
are processed one at a time, in arrival order. -/
def drainEvents (st : LoopState) (events : List SDLEvent) : LoopState :=
  events.foldl processEvent st

/-- The movement flags held in a loop state. -/
def intentOf (st : LoopState) : MovementIntent :=
  { up := st.movingUp, down := st.movingDown,
    left := st.movingLeft, right := st.movingRight }

/-- Externally visible actions of the loop body and the shutdown path. -/
inductive Act where
  | update
  | render
  | logMsg
  | destroyRenderer
  | destroyWindow
  | sdlQuitCall
deriving DecidableEq

/-- One iteration of the game loop body (main.cpp lines 57-156): drain all
pending events, then unconditionally update the position (lines 121-130)
and render the frame (lines 134-143). The running flag is only consulted
at the top of the while loop, so the iteration in which a quit event is
drained still performs its update and render. -/
def loopIter (st : LoopState) (batch : List SDLEvent) : LoopState × List Act :=
  let st1 := drainEvents st batch
  let p := positionUpdater (intentOf st1) moveSpeed squareSize
      windowWidth windowHeight { x := st1.squareX, y := st1.squareY }
  ({ st1 with squareX := p.x, squareY := p.y }, [Act.update, Act.render])

/-- The while loop (main.cpp line 55) over a finite list of per-iteration
event batches: an iteration runs only while the running flag is set. -/
def runLoop (st : LoopState) (batches : List (List SDLEvent)) :
    LoopState × List Act :=
  match batches with
  | [] => (st, [])
  | batch :: rest =>
      if st.running then
        let (st1, acts1) := loopIter st batch
        let (st2, acts2) := runLoop st1 rest
        (st2, acts1 ++ acts2)
      else (st, [])

/-- The shutdown sequence after the loop (main.cpp lines 161-163):
destroy the renderer, then the window, then quit SDL. -/
def cleanupTrace : List Act :=
  [Act.destroyRenderer, Act.destroyWindow, Act.sdlQuitCall]

/-- The action trace of a whole successful run: the loop actions followed
by the shutdown sequence. -/
def programTrace (batches : List (List SDLEvent)) : List Act :=
  (runLoop initState batches).2 ++ cleanupTrace

/-- The whole of main (main.cpp lines 3-166) as a function of the success
of SDL_Init and of SDL_CreateWindowAndRenderer, returning the process exit
code and the trace of logging, loop and release actions. On an
initialization failure a diagnostic is logged and the code is 1 (lines
5-8); on a creation failure a diagnostic is logged, SDL_Quit releases the
initialized subsystem, and the code is 1 (lines 15-19); otherwise the loop
runs, everything is released and the code is 0 (lines 159-165). -/
def mainModel (initOk createOk : Bool) (batches : List (List SDLEvent)) :
    ℕ × List Act :=
  if !initOk then (1, [Act.logMsg])
  else if !createOk then (1, [Act.logMsg, Act.sdlQuitCall])
  else (0, programTrace batches)

/-- The C cast (Uint32)(q) of a nonnegative float quantity (main.cpp line
155): truncation toward zero, reduced modulo 2 to the 32. -/
def castUint32 (q : ℚ) : ℕ :=
  (Int.toNat ⌊q⌋) % 2 ^ 32

/-- The frame pacer decision (main.cpp lines 154-156): when the elapsed
time is below the target, request SDL_Delay of the cast difference;
otherwise request nothing. A pure function of the elapsed time alone. -/
def frameDelay (elapsedMS : ℚ) : Option ℕ :=
  if elapsedMS < targetFrameTimeMS then
    some (castUint32 (targetFrameTimeMS - elapsedMS))
  else none

/-- Helper: the clamp phase alone establishes the bounds invariant on any
input, as soon as the size fits each window dimension. -/
theorem clampStep_bounds (p : Position) (size w h : ℚ)
    (hw : size ≤ w) (hh : size ≤ h) :
    0 ≤ (clampStep size w h p).x ∧ (clampStep size w h p).x ≤ w - size ∧
    0 ≤ (clampStep size w h p).y ∧ (clampStep size w h p).y ≤ h - size := by
  simp only [clampStep]
  refine ⟨?_, ?_, ?_, ?_⟩ <;> split_ifs <;> linarith

/-- C1: for any input position (in or out of bounds), any intent, any move
speed at least 0 and any size at most min(windowWidth, windowHeight), one
application of the Position Updater lands in
0 le x le windowWidth - size and 0 le y le windowHeight - size. -/
theorem positionUpdater_bounds (p : Position) (intent : MovementIntent)
    (speed size : ℚ) (hspeed : 0 ≤ speed)
    (hsize : size ≤ min windowWidth windowHeight) :
    0 ≤ (positionUpdater intent speed size windowWidth windowHeight p).x ∧
    (positionUpdater intent speed size windowWidth windowHeight p).x ≤
      windowWidth - size ∧
    0 ≤ (positionUpdater intent speed size windowWidth windowHeight p).y ∧
    (positionUpdater intent speed size windowWidth windowHeight p).y ≤
      windowHeight - size := by
  have hw : size ≤ windowWidth := le_trans hsize (min_le_left _ _)
  have hh : size ≤ windowHeight := le_trans hsize (min_le_right _ _)
  simp only [positionUpdater]
  exact clampStep_bounds (moveStep intent speed p) size windowWidth windowHeight hw hh

/-- Witness for C1 at a far-out-of-bounds start, all flags on, speed 3,
size 50. -/
theorem positionUpdater_bounds_witness :
    (0 : ℚ) ≤ 3 ∧ (50 : ℚ) ≤ min windowWidth windowHeight ∧
    (0 ≤ (positionUpdater ⟨true, true, true, true⟩ 3 50 windowWidth windowHeight
        ⟨-100, 1000⟩).x ∧
     (positionUpdater ⟨true, true, true, true⟩ 3 50 windowWidth windowHeight
        ⟨-100, 1000⟩).x ≤ windowWidth - 50 ∧
     0 ≤ (positionUpdater ⟨true, true, true, true⟩ 3 50 windowWidth windowHeight
        ⟨-100, 1000⟩).y ∧
     (positionUpdater ⟨true, true, true, true⟩ 3 50 windowWidth windowHeight
        ⟨-100, 1000⟩).y ≤ windowHeight - 50) :=
  ⟨by norm_num, by norm_num [windowWidth, windowHeight],
   positionUpdater_bounds ⟨-100, 1000⟩ ⟨true, true, true, true⟩ 3 50
     (by norm_num) (by norm_num [windowWidth, windowHeight])⟩

/-- C4: opposing flags both true cancel exactly on their axis, before any
clamping, for every starting position and every move speed. -/
theorem moveStep_opposing_cancel (p : Position) (speed : ℚ) (u d l r : Bool) :
    (moveStep { up := true, down := true, left := l, right := r } speed p).y = p.y ∧
    (moveStep { up := u, down := d, left := true, right := true } speed p).x = p.x := by
  constructor <;> simp [moveStep]

/-- C5: with size 50, windowWidth 800, x 760, right held and speed 20, the
movement phase first reaches 780 and the clamp then snaps x to exactly
750 = 800 - 50. -/
theorem clamp_boundary_example :
    (moveStep { up := false, down := false, left := false, right := true } 20
       { x := 760, y := 100 }).x = 780 ∧
    (positionUpdater { up := false, down := false, left := false, right := true }
       20 50 windowWidth windowHeight { x := 760, y := 100 }).x = 750 := by
  constructor <;>
    norm_num [moveStep, positionUpdater, clampStep, windowWidth, windowHeight]

/-- C6: on a position already satisfying the bounds invariant, the Position
Updater with all four flags false is the identity. -/
theorem positionUpdater_no_input_id (p : Position) (speed size w h : ℚ)
    (hx0 : 0 ≤ p.x) (hx1 : p.x ≤ w - size) (hy0 : 0 ≤ p.y) (hy1 : p.y ≤ h - size) :
    positionUpdater { up := false, down := false, left := false, right := false }
      speed size w h p = p := by
  have hx : ¬ (p.x < 0) := not_lt.mpr hx0
  have hy : ¬ (p.y < 0) := not_lt.mpr hy0
  have hxs : ¬ (p.x + size > w) := not_lt.mpr (by linarith)
  have hys : ¬ (p.y + size > h) := not_lt.mpr (by linarith)
  simp [positionUpdater, moveStep, clampStep, hx, hy, hxs, hys]

/-- Witness for C6 at the initial position (100, 100) on the 800x600
window with size 50, speed 5. -/
theorem positionUpdater_no_input_id_witness :
    (0 : ℚ) ≤ (Position.mk 100 100).x ∧ (Position.mk 100 100).x ≤ 800 - 50 ∧
    (0 : ℚ) ≤ (Position.mk 100 100).y ∧ (Position.mk 100 100).y ≤ 600 - 50 ∧
    positionUpdater { up := false, down := false, left := false, right := false }
      5 50 800 600 (Position.mk 100 100) = Position.mk 100 100 :=
  ⟨by norm_num, by norm_num, by norm_num, by norm_num,
   positionUpdater_no_input_id (Position.mk 100 100) 5 50 800 600
     (by norm_num) (by norm_num) (by norm_num) (by norm_num)⟩

/-- C9: when the size precondition fails (size strictly larger than the
window width), one application of the Position Updater always sets x to
windowWidth - size, which is negative: the upper clamp runs after the
lower clamp and its result stands, violating 0 le x. -/
theorem clamp_oversize_negative (p : Position) (intent : MovementIntent)
    (speed size : ℚ) (hsize : windowWidth < size) :
    (positionUpdater intent speed size windowWidth windowHeight p).x =
      windowWidth - size ∧
    (positionUpdater intent speed size windowWidth windowHeight p).x < 0 := by
  have h800 : windowWidth = (800 : ℚ) := rfl
  rw [h800] at hsize
  simp only [positionUpdater, clampStep, windowWidth, windowHeight]
  constructor <;> split_ifs <;> linarith

/-- Witness for C9 with a 900-wide square on the 800-wide window. -/
theorem clamp_oversize_negative_witness :
    windowWidth < (900 : ℚ) ∧
    ((positionUpdater ⟨false, false, false, false⟩ 5 900 windowWidth windowHeight
        ⟨100, 100⟩).x = windowWidth - 900 ∧
     (positionUpdater ⟨false, false, false, false⟩ 5 900 windowWidth windowHeight
        ⟨100, 100⟩).x < 0) :=
  ⟨by norm_num [windowWidth],
   clamp_oversize_negative ⟨100, 100⟩ ⟨false, false, false, false⟩ 5 900
     (by norm_num [windowWidth])⟩

/-- C7: the event mapping of the drain loop, event by event in arrival
order: a press of W, S, A or D sets its flag, a release clears it, a quit
event clears the running flag, every other event is a no-op, and no event
ever touches the square position. -/
theorem processEvent_spec (st : LoopState) :
    processEvent st (SDLEvent.keyDown Scancode.w) = { st with movingUp := true } ∧
    processEvent st (SDLEvent.keyDown Scancode.s) = { st with movingDown := true } ∧
    processEvent st (SDLEvent.keyDown Scancode.a) = { st with movingLeft := true } ∧
    processEvent st (SDLEvent.keyDown Scancode.d) = { st with movingRight := true } ∧
    processEvent st (SDLEvent.keyUp Scancode.w) = { st with movingUp := false } ∧
    processEvent st (SDLEvent.keyUp Scancode.s) = { st with movingDown := false } ∧
    processEvent st (SDLEvent.keyUp Scancode.a) = { st with movingLeft := false } ∧
    processEvent st (SDLEvent.keyUp Scancode.d) = { st with movingRight := false } ∧
    processEvent st SDLEvent.quit = { st with running := false } ∧
    processEvent st (SDLEvent.keyDown Scancode.other) = st ∧
    processEvent st (SDLEvent.keyUp Scancode.other) = st ∧
    processEvent st SDLEvent.otherEvent = st ∧
    (∀ e : SDLEvent, (processEvent st e).squareX = st.squareX ∧
      (processEvent st e).squareY = st.squareY) ∧
    (∀ (e : SDLEvent) (es : List SDLEvent),
      drainEvents st (e :: es) = drainEvents (processEvent st e) es) := by
  refine ⟨rfl, rfl, rfl, rfl, rfl, rfl, rfl, rfl, rfl, rfl, rfl, rfl, ?_, ?_⟩
  · intro e
    cases e with
    | quit => exact ⟨rfl, rfl⟩
    | keyDown sc => cases sc <;> exact ⟨rfl, rfl⟩
    | keyUp sc => cases sc <;> exact ⟨rfl, rfl⟩
    | otherEvent => exact ⟨rfl, rfl⟩
  · intro e es
    rfl

/-- Helper: no event can set the running flag back to true. -/
theorem processEvent_running_false (st : LoopState) (e : SDLEvent)
    (h : st.running = false) : (processEvent st e).running = false := by
  cases e with
  | quit => rfl
  | keyDown sc => cases sc <;> simpa [processEvent] using h
  | keyUp sc => cases sc <;> simpa [processEvent] using h
  | otherEvent => exact h

/-- Helper: draining any batch keeps a cleared running flag cleared. -/
theorem drainEvents_running_false (st : LoopState) (events : List SDLEvent)
    (h : st.running = false) : (drainEvents st events).running = false := by
  induction events generalizing st with
  | nil => exact h
  | cons e es ih => exact ih (processEvent st e) (processEvent_running_false st e h)

/-- Helper: a batch containing a quit event leaves the running flag
cleared after the drain, wherever the quit sits in the batch. -/
theorem drainEvents_quit (st : LoopState) (events : List SDLEvent)
    (h : SDLEvent.quit ∈ events) : (drainEvents st events).running = false := by
  induction events generalizing st with
  | nil => cases h
  | cons e es ih =>
      rcases List.mem_cons.mp h with he | he
      · have : drainEvents st (e :: es) = drainEvents (processEvent st e) es := rfl
        rw [this, ← he]
        exact drainEvents_running_false _ es rfl
      · exact ih (processEvent st e) he

/-- Helper: with the running flag cleared, the loop performs no further
iteration on any remaining batches. -/
theorem runLoop_stopped (st : LoopState) (batches : List (List SDLEvent))
    (h : st.running = false) : runLoop st batches = (st, []) := by
  cases batches with
  | nil => rfl
  | cons b bs => simp [runLoop, h]

/-- C2 counterexample: in the very iteration whose drain observes the quit
event, the loop body still performs its position update (here the square
moves from x = 100 to x = 105 because the D press in the same batch set
the right flag) and still submits a render. -/
theorem quit_iteration_still_updates :
    (loopIter initState [SDLEvent.keyDown Scancode.d, SDLEvent.quit]).1.squareX = 105 ∧
    initState.squareX = 100 ∧
    Act.update ∈ (loopIter initState [SDLEvent.keyDown Scancode.d, SDLEvent.quit]).2 ∧
    Act.render ∈ (loopIter initState [SDLEvent.keyDown Scancode.d, SDLEvent.quit]).2 := by
  refine ⟨?_, rfl, ?_, ?_⟩
  · norm_num [loopIter, drainEvents, processEvent, intentOf, positionUpdater,
      moveStep, clampStep, initState, moveSpeed, squareSize, windowWidth,
      windowHeight]
  · simp [loopIter]
  · simp [loopIter]

/-- C2 amended: the iteration that observes quit still runs its update and
render, but it is the last one: the running flag is cleared, every later
batch is ignored, and the full trace from that point is exactly one
update, one render, then one renderer release followed by one window
release and the subsystem shutdown. -/
theorem quit_stops_loop (st : LoopState) (batch : List SDLEvent)
    (rest : List (List SDLEvent)) (hrun : st.running = true)
    (hq : SDLEvent.quit ∈ batch) :
    (loopIter st batch).1.running = false ∧
    (loopIter st batch).2 = [Act.update, Act.render] ∧
    runLoop (loopIter st batch).1 rest = ((loopIter st batch).1, []) ∧
    (runLoop st (batch :: rest)).2 ++ cleanupTrace =
      [Act.update, Act.render, Act.destroyRenderer, Act.destroyWindow,
        Act.sdlQuitCall] ∧
    ((runLoop st (batch :: rest)).2 ++ cleanupTrace).count Act.destroyRenderer = 1 ∧
    ((runLoop st (batch :: rest)).2 ++ cleanupTrace).count Act.destroyWindow = 1 := by
  have h1 : (loopIter st batch).1.running = false := by
    simpa [loopIter] using drainEvents_quit st batch hq
  have h2 : (loopIter st batch).2 = [Act.update, Act.render] := rfl
  have h3 : runLoop (loopIter st batch).1 rest = ((loopIter st batch).1, []) :=
    runLoop_stopped _ rest h1
  have h4 : (runLoop st (batch :: rest)).2 ++ cleanupTrace =
      [Act.update, Act.render, Act.destroyRenderer, Act.destroyWindow,
        Act.sdlQuitCall] := by
    simp [runLoop, hrun, h2, h3, cleanupTrace]
  refine ⟨h1, h2, h3, h4, ?_, ?_⟩ <;> rw [h4] <;> decide

/-- Witness for the amended C2 at the initial state with a single quit
batch and one extra batch that must be ignored. -/
theorem quit_stops_loop_witness :
    initState.running = true ∧
    SDLEvent.quit ∈ [SDLEvent.quit] ∧
    ((loopIter initState [SDLEvent.quit]).1.running = false ∧
     (loopIter initState [SDLEvent.quit]).2 = [Act.update, Act.render] ∧
     runLoop (loopIter initState [SDLEvent.quit]).1 [[SDLEvent.keyDown Scancode.w]] =
       ((loopIter initState [SDLEvent.quit]).1, []) ∧
     (runLoop initState ([SDLEvent.quit] :: [[SDLEvent.keyDown Scancode.w]])).2 ++
         cleanupTrace =
       [Act.update, Act.render, Act.destroyRenderer, Act.destroyWindow,
         Act.sdlQuitCall] ∧
     ((runLoop initState ([SDLEvent.quit] :: [[SDLEvent.keyDown Scancode.w]])).2 ++
         cleanupTrace).count Act.destroyRenderer = 1 ∧
     ((runLoop initState ([SDLEvent.quit] :: [[SDLEvent.keyDown Scancode.w]])).2 ++
         cleanupTrace).count Act.destroyWindow = 1) :=
  ⟨rfl, by simp,
   quit_stops_loop initState [SDLEvent.quit] [[SDLEvent.keyDown Scancode.w]]
     rfl (by simp)⟩

/-- Helper: for a remainder strictly between 0 and the target, the Uint32
cast is the integer floor: the modulus is inert and the floor nonnegative. -/
theorem castUint32_eq_floor (q : ℚ) (h0 : 0 ≤ q) (h17 : q < 17) :
    (castUint32 q : ℚ) = (⌊q⌋ : ℚ) ∧ castUint32 q = Int.toNat ⌊q⌋ := by
  have hfl0 : 0 ≤ ⌊q⌋ := Int.floor_nonneg.mpr h0
  have hfl17 : ⌊q⌋ < 17 := Int.floor_lt.mpr (by exact_mod_cast h17)
  have hlt : Int.toNat ⌊q⌋ < 2 ^ 32 := by omega
  have hmod : castUint32 q = Int.toNat ⌊q⌋ := Nat.mod_eq_of_lt hlt
  refine ⟨?_, hmod⟩
  rw [hmod]
  exact_mod_cast congrArg (fun z : ℤ => (z : ℚ)) (Int.toNat_of_nonneg hfl0)

/-- C3: a frame slower than the 1000/60 ms target gets no sleep request;
a faster frame gets a single request equal to target minus elapsed up to
the one-millisecond granularity of the sleep call (within 1 ms below the
exact remainder, never above it). The decision reads nothing but this
frame-s elapsed time: no debt is carried over. -/
theorem frameDelay_spec (e : ℚ) (he : 0 ≤ e) :
    (e < targetFrameTimeMS →
      ∃ d : ℕ, frameDelay e = some d ∧
        targetFrameTimeMS - e - 1 < (d : ℚ) ∧ (d : ℚ) ≤ targetFrameTimeMS - e) ∧
    (targetFrameTimeMS ≤ e → frameDelay e = none) := by
  constructor
  · intro hlt
    refine ⟨castUint32 (targetFrameTimeMS - e), ?_, ?_, ?_⟩
    · simp [frameDelay, hlt]
    · have h0 : 0 ≤ targetFrameTimeMS - e := by linarith
      have h17 : targetFrameTimeMS - e < 17 := by
        simp only [targetFrameTimeMS] at *
        linarith
      rw [(castUint32_eq_floor _ h0 h17).1]
      have := Int.sub_one_lt_floor (targetFrameTimeMS - e)
      linarith
    · have h0 : 0 ≤ targetFrameTimeMS - e := by linarith
      have h17 : targetFrameTimeMS - e < 17 := by
        simp only [targetFrameTimeMS] at *
        linarith
      rw [(castUint32_eq_floor _ h0 h17).1]
      exact Int.floor_le _
  · intro hge
    simp [frameDelay, not_lt.mpr hge]

/-- Witness for C3 at the spec-s scenario inputs: 5 ms of work yields a
request within 1 ms of 11.67, 20 ms of work yields none. -/
theorem frameDelay_spec_witness :
    ((0 : ℚ) ≤ 5 ∧ (5 : ℚ) < targetFrameTimeMS ∧
      ∃ d : ℕ, frameDelay 5 = some d ∧
        targetFrameTimeMS - 5 - 1 < (d : ℚ) ∧ (d : ℚ) ≤ targetFrameTimeMS - 5) ∧
    ((0 : ℚ) ≤ 20 ∧ targetFrameTimeMS ≤ 20 ∧ frameDelay 20 = none) :=
  ⟨⟨by norm_num, by norm_num [targetFrameTimeMS],
    (frameDelay_spec 5 (by norm_num)).1 (by norm_num [targetFrameTimeMS])⟩,
   ⟨by norm_num, by norm_num [targetFrameTimeMS],
    (frameDelay_spec 20 (by norm_num)).2 (by norm_num [targetFrameTimeMS])⟩⟩

/-- C10: the requested delay is the truncation toward zero of the exact
remainder to an unsigned 32-bit count of milliseconds: never above the
remainder, short of it by less than 1 ms, and strictly below it whenever
the remainder is not a whole number of milliseconds. -/
theorem frameDelay_truncates (e : ℚ) (h0 : 0 ≤ e) (hlt : e < targetFrameTimeMS) :
    ∃ d : ℕ, frameDelay e = some d ∧
      d = Int.toNat ⌊targetFrameTimeMS - e⌋ % 2 ^ 32 ∧
      (d : ℚ) ≤ targetFrameTimeMS - e ∧
      targetFrameTimeMS - e - (d : ℚ) < 1 ∧
      (targetFrameTimeMS - e ≠ (⌊targetFrameTimeMS - e⌋ : ℚ) →
        (d : ℚ) < targetFrameTimeMS - e) := by
  have hr0 : 0 ≤ targetFrameTimeMS - e := by linarith
  have hr17 : targetFrameTimeMS - e < 17 := by
    simp only [targetFrameTimeMS] at *
    linarith
  obtain ⟨hcast, _⟩ := castUint32_eq_floor (targetFrameTimeMS - e) hr0 hr17
  refine ⟨castUint32 (targetFrameTimeMS - e), ?_, rfl, ?_, ?_, ?_⟩
  · simp [frameDelay, hlt]
  · rw [hcast]; exact Int.floor_le _
  · rw [hcast]
    have := Int.sub_one_lt_floor (targetFrameTimeMS - e)
    linarith
  · intro hne
    rw [hcast]
    exact lt_of_le_of_ne (Int.floor_le _) (fun hh => hne hh.symm)

/-- Witness for C10 at 5 ms elapsed: the remainder 35/3 is truncated. -/
theorem frameDelay_truncates_witness :
    (0 : ℚ) ≤ 5 ∧ (5 : ℚ) < targetFrameTimeMS ∧
    ∃ d : ℕ, frameDelay 5 = some d ∧
      d = Int.toNat ⌊targetFrameTimeMS - 5⌋ % 2 ^ 32 ∧
      (d : ℚ) ≤ targetFrameTimeMS - 5 ∧
      targetFrameTimeMS - 5 - (d : ℚ) < 1 ∧
      (targetFrameTimeMS - 5 ≠ (⌊targetFrameTimeMS - 5⌋ : ℚ) →
        (d : ℚ) < targetFrameTimeMS - 5) :=
  ⟨by norm_num, by norm_num [targetFrameTimeMS],
   frameDelay_truncates 5 (by norm_num) (by norm_num [targetFrameTimeMS])⟩

/-- C8: the exit code is 0 exactly when both initialization steps succeed
(and the loop then ends only through a quit), 1 on either failure with a
diagnostic logged; a creation failure still shuts the initialized
subsystem down, and the normal path releases the renderer, the window and
the subsystem. -/
theorem mainModel_exit_codes (initOk createOk : Bool)
    (batches : List (List SDLEvent)) :
    ((mainModel initOk createOk batches).1 = 0 ↔
      (initOk = true ∧ createOk = true)) ∧
    (initOk = false → mainModel initOk createOk batches = (1, [Act.logMsg])) ∧
    (initOk = true → createOk = false →
      mainModel initOk createOk batches = (1, [Act.logMsg, Act.sdlQuitCall])) ∧
    (initOk = true → createOk = true →
      (mainModel initOk createOk batches).2 =
        (runLoop initState batches).2 ++
          [Act.destroyRenderer, Act.destroyWindow, Act.sdlQuitCall]) := by
  cases initOk <;> cases createOk <;>
    simp [mainModel, programTrace, cleanupTrace]

/-- Witness for C8 at each of the three outcomes. -/
theorem mainModel_exit_codes_witness :
    mainModel false true [] = (1, [Act.logMsg]) ∧
    mainModel true false [] = (1, [Act.logMsg, Act.sdlQuitCall]) ∧
    (mainModel true true [[SDLEvent.quit]]).1 = 0 :=
  ⟨(mainModel_exit_codes false true []).2.1 rfl,
   (mainModel_exit_codes true false []).2.2.1 rfl rfl,
   (mainModel_exit_codes true true [[SDLEvent.quit]]).1.mpr ⟨rfl, rfl⟩⟩

end MoveSquare
